import Mathlib

/-
Verification of the PromptLens heuristic-classification logic (app.py).

The pure helper functions of the application are embedded shallowly:
Python strings become Lean String, substring tests become list-infix
tests on the lower-cased character list, Python floats become exact
rationals, and the single dictionary-based handler branch becomes an
explicit outcome type.
-/

/-- Model of the per-character lower-casing performed by str.lower. -/
def lowerL (s : String) : List Char := s.toList.map Char.toLower

/-- Number of keywords of a list that occur as substrings of the
lower-cased prompt characters, as in sum of indicator tests. -/
def kwHits (lp : List Char) (kws : List String) : Nat :=
  (kws.filter (fun k => k.toList <:+: lp)).length

/-- Keywords of the coding domain. -/
def kws0 : List String := ["code", "function", "debug", "python", "program"]

/-- Keywords of the data analysis domain. -/
def kws1 : List String := ["data", "analyze", "statistics", "trend"]

/-- Keywords of the creative domain. -/
def kws2 : List String := ["story", "write", "creative", "poem"]

/-- Keywords of the research domain. -/
def kws3 : List String := ["research", "compare", "study", "analysis"]

/-- The DOMAIN_PATTERNS table: name, keywords, temperature, in the
insertion order of the Python dict. -/
def DOMAIN_PATTERNS : List (String × List String × ℚ) :=
  [("coding", kws0, 0.1),
   ("data_analysis", kws1, 0.2),
   ("creative", kws2, 0.8),
   ("research", kws3, 0.3)]

/-- The PROMPT_PATTERNS table: pattern name and temperature. -/
def PROMPT_PATTERNS : List (String × ℚ) :=
  [("Zero-Shot", 0.3),
   ("Few-Shot", 0.2),
   ("Chain-of-Thought", 0.2),
   ("Role-Play", 0.4),
   ("Structured Output", 0.1),
   ("Meta-Prompting", 0.5)]

/-- The scores dict of detect_domain: domains with a positive keyword
count, in table order. -/
def scoreList (lp : List Char) : List (String × Nat) :=
  DOMAIN_PATTERNS.filterMap (fun dc =>
    let s := kwHits lp dc.2.1
    if s = 0 then none else some (dc.1, s))

/-- Python max over the scores dict with key lookup: the first entry
whose count is maximal (later entries replace only on strict increase). -/
def pickBest : List (String × Nat) → Option (String × Nat)
  | [] => none
  | x :: xs => some (xs.foldl (fun b y => if b.2 < y.2 then y else b) x)

/-- detect_domain from app.py. -/
def detect_domain (p : String) : String × ℚ :=
  match pickBest (scoreList (lowerL p)) with
  | none => ("general", 0.5)
  | some b => (b.1, min ((b.2 : ℚ) / 3) 1)

/-- Result record of analyze_prompt_quality. -/
structure QualityReport where
  issues : List String
  score : ℤ
deriving DecidableEq

/-- Word count of Python str.split with no separator: the number of
maximal runs of non-whitespace characters. -/
def countWordsAux : List Char → Bool → Nat
  | [], _ => 0
  | c :: cs, inWord =>
    if c.isWhitespace then countWordsAux cs false
    else (if inWord then 0 else 1) + countWordsAux cs true

/-- len of the split word list of a prompt. -/
def wordCount (p : String) : Nat := countWordsAux p.toList false

/-- analyze_prompt_quality from app.py. -/
def analyze_prompt_quality (p : String) : QualityReport :=
  let issues : List String := []
  let issues := if wordCount p < 5
    then issues ++ ["Too short – add more context"] else issues
  let issues := if ¬ ("format".toList <:+: lowerL p)
    then issues ++ ["No output format specified"] else issues
  ⟨issues, max 1 (10 - (issues.length : ℤ) * 2)⟩

/-- recommend_pattern from app.py; the domain argument is unused by
the logic, as in the source. -/
def recommend_pattern (domain : String) (p : String) : String :=
  if "step by step".toList <:+: lowerL p then "Chain-of-Thought"
  else if "example".toList <:+: lowerL p then "Few-Shot"
  else "Zero-Shot"

/-- DOMAIN_PATTERNS.get applied to a domain name: the entry of the
table for that key, when present. -/
def domainEntry (d : String) : Option (List String × ℚ) :=
  (DOMAIN_PATTERNS.find? (fun e => e.1 = d)).map (fun e => e.2)

/-- PROMPT_PATTERNS.get applied to a pattern name. -/
def patternEntry (pat : String) : Option ℚ :=
  (PROMPT_PATTERNS.find? (fun e => e.1 = pat)).map (fun e => e.2)

/-- Rounding to two decimal places, the model of round(x, 2). -/
def round2 (q : ℚ) : ℚ := (round (q * 100) : ℤ) / 100

/-- Result record of model_config. -/
structure ModelConfig where
  temperature : ℚ
  max_tokens : ℤ
deriving DecidableEq

/-- model_config from app.py: chained .get with default 0.5 on both
tables, average of the two temperatures, round to two decimals, fixed
token budget. -/
def model_config (domain pattern : String) : ModelConfig :=
  { temperature :=
      round2 ((((domainEntry domain).map (fun e => e.2)).getD 0.5 +
        (patternEntry pattern).getD 0.5) / 2),
    max_tokens := 3000 }

/-- Python str.strip with no argument: remove leading and trailing
whitespace. -/
def stripWS (s : String) : String :=
  ⟨((s.toList.dropWhile Char.isWhitespace).reverse.dropWhile
      Char.isWhitespace).reverse⟩

/-- Outcome of one press of the refine button: blocked on a missing
key, blocked on a blank prompt, or analysis performed followed by the
single outbound chat-completion call. -/
inductive SubmitOutcome where
  | missingKey : SubmitOutcome
  | emptyPrompt : SubmitOutcome
  | analyzed : String → ℚ → QualityReport → String → ModelConfig → SubmitOutcome
deriving DecidableEq

/-- The refine_btn handler of app.py up to the outbound call: the
empty string is the only falsy str, so the credential check is an
equality with the empty string; the prompt check strips whitespace. -/
def refine_submit (api_key user_prompt : String) : SubmitOutcome :=
  if api_key = "" then .missingKey
  else if stripWS user_prompt = "" then .emptyPrompt
  else
    let dc := detect_domain user_prompt
    let quality := analyze_prompt_quality user_prompt
    let pattern := recommend_pattern dc.1 user_prompt
    .analyzed dc.1 dc.2 quality pattern (model_config dc.1 pattern)

/-- Number of chat-completion requests issued for an outcome: exactly
one on the analyzed path, none on a blocked submission. -/
def outbound_calls : SubmitOutcome → Nat
  | .analyzed _ _ _ _ _ => 1
  | _ => 0

/-- Entry of DOMAIN_PATTERNS at a position. -/
def domAt (i : Fin 4) : String × List String × ℚ :=
  DOMAIN_PATTERNS.get ⟨i.val, i.isLt⟩

/-- Keyword count of the prompt for the domain at a table position. -/
def kwCountIdx (p : String) (i : Fin 4) : Nat :=
  kwHits (lowerL p) (domAt i).2.1

/-- Every keyword of every domain of the table, in table order. -/
def allKeywords : List String := (DOMAIN_PATTERNS.map (fun e => e.2.1)).flatten

/-- Keywords of a domain name, empty when the name is not in the table. -/
def domainKeywords (d : String) : List String :=
  ((domainEntry d).map (fun e => e.1)).getD []

/-
Helper lemmas shared by several claims.
-/

/-- The scores dict, written out entry by entry. -/
lemma scoreList_eq (lp : List Char) :
    scoreList lp =
      (if kwHits lp kws0 = 0 then [] else [("coding", kwHits lp kws0)]) ++
      (if kwHits lp kws1 = 0 then [] else [("data_analysis", kwHits lp kws1)]) ++
      (if kwHits lp kws2 = 0 then [] else [("creative", kwHits lp kws2)]) ++
      (if kwHits lp kws3 = 0 then [] else [("research", kwHits lp kws3)]) := by
  by_cases h0 : kwHits lp kws0 = 0 <;> by_cases h1 : kwHits lp kws1 = 0 <;>
    by_cases h2 : kwHits lp kws2 = 0 <;> by_cases h3 : kwHits lp kws3 = 0 <;>
    simp [scoreList, DOMAIN_PATTERNS, h0, h1, h2, h3]

/-- Arithmetic characterization of detect_domain as a first-wins
argmax over the four keyword counts. -/
def dd_model (c0 c1 c2 c3 : Nat) : String × ℚ :=
  if c0 = 0 ∧ c1 = 0 ∧ c2 = 0 ∧ c3 = 0 then ("general", 0.5)
  else if c1 ≤ c0 ∧ c2 ≤ c0 ∧ c3 ≤ c0 then ("coding", min ((c0 : ℚ) / 3) 1)
  else if c2 ≤ c1 ∧ c3 ≤ c1 then ("data_analysis", min ((c1 : ℚ) / 3) 1)
  else if c3 ≤ c2 then ("creative", min ((c2 : ℚ) / 3) 1)
  else ("research", min ((c3 : ℚ) / 3) 1)

/-- detect_domain agrees with the argmax characterization. -/
lemma detect_domain_eq (p : String) :
    detect_domain p =
      dd_model (kwHits (lowerL p) kws0) (kwHits (lowerL p) kws1)
        (kwHits (lowerL p) kws2) (kwHits (lowerL p) kws3) := by
  unfold detect_domain
  rw [scoreList_eq (lowerL p)]
  generalize kwHits (lowerL p) kws0 = c0
  generalize kwHits (lowerL p) kws1 = c1
  generalize kwHits (lowerL p) kws2 = c2
  generalize kwHits (lowerL p) kws3 = c3
  by_cases h0 : c0 = 0 <;> by_cases h1 : c1 = 0 <;> by_cases h2 : c2 = 0 <;>
    by_cases h3 : c3 = 0 <;>
    simp [h0, h1, h2, h3, pickBest, dd_model, List.foldl] <;>
    split_ifs <;> first | rfl | omega

/-- The keyword count at table position zero. -/
lemma kwCountIdx_zero (p : String) : kwCountIdx p 0 = kwHits (lowerL p) kws0 := rfl

/-- The keyword count at table position one. -/
lemma kwCountIdx_one (p : String) : kwCountIdx p 1 = kwHits (lowerL p) kws1 := rfl

/-- The keyword count at table position two. -/
lemma kwCountIdx_two (p : String) : kwCountIdx p 2 = kwHits (lowerL p) kws2 := rfl

/-- The keyword count at table position three. -/
lemma kwCountIdx_three (p : String) : kwCountIdx p 3 = kwHits (lowerL p) kws3 := rfl

/-- A zero keyword count means no keyword of the list occurs. -/
lemma kwHits_eq_zero (lp : List Char) (kws : List String) :
    kwHits lp kws = 0 ↔ ∀ k ∈ kws, ¬ (k.toList <:+: lp) := by
  unfold kwHits
  rw [List.length_eq_zero, List.filter_eq_nil_iff]
  simp

/-- A positive keyword count yields an occurring keyword. -/
lemma exists_keyword_of_pos (lp : List Char) (kws : List String)
    (h : 0 < kwHits lp kws) : ∃ k ∈ kws, k.toList <:+: lp := by
  by_contra hc
  push_neg at hc
  have h0 : kwHits lp kws = 0 := (kwHits_eq_zero lp kws).mpr hc
  omega

/-- Bounds of the confidence expression for a positive count. -/
lemma conf_bounds (c : Nat) (hc : 0 < c) :
    (1 : ℚ) / 3 ≤ min ((c : ℚ) / 3) 1 ∧ 0 ≤ min ((c : ℚ) / 3) 1 ∧
      min ((c : ℚ) / 3) 1 ≤ 1 := by
  have h1 : (1 : ℚ) ≤ (c : ℚ) := by exact_mod_cast hc
  refine ⟨le_min (by linarith) (by norm_num), le_min (by positivity) (by norm_num),
    min_le_right _ _⟩

/-- Lookup of a domain present in the table. -/
lemma domainEntry_of_mem (d : String) (kws : List String) (t : ℚ)
    (h : (d, kws, t) ∈ DOMAIN_PATTERNS) : domainEntry d = some (kws, t) := by
  simp only [DOMAIN_PATTERNS, List.mem_cons, List.not_mem_nil, or_false] at h
  rcases h with h | h | h | h <;>
    (rw [Prod.ext_iff] at h; obtain ⟨rfl, h2⟩ := h; rw [Prod.ext_iff] at h2;
     obtain ⟨rfl, rfl⟩ := (by simpa using h2 : kws = _ ∧ t = _)) <;> rfl

/-- Lookup of a domain name that is not a key of the table. -/
lemma domainEntry_of_not_key (d : String)
    (h : d ∉ DOMAIN_PATTERNS.map (fun e => e.1)) : domainEntry d = none := by
  unfold domainEntry
  rw [List.find?_eq_none.mpr]
  · rfl
  · intro x hx
    simp only [decide_eq_true_eq]
    intro he
    exact h (he ▸ List.mem_map_of_mem (fun e => e.1) hx)

/-- Lookup of a pattern present in the table. -/
lemma patternEntry_of_mem (pat : String) (t : ℚ)
    (h : (pat, t) ∈ PROMPT_PATTERNS) : patternEntry pat = some t := by
  simp only [PROMPT_PATTERNS, List.mem_cons, List.not_mem_nil, or_false] at h
  rcases h with h | h | h | h | h | h <;>
    (rw [Prod.ext_iff] at h; obtain ⟨rfl, rfl⟩ := h) <;> rfl

/-- Lookup of a pattern name that is not a key of the table. -/
lemma patternEntry_of_not_key (pat : String)
    (h : pat ∉ PROMPT_PATTERNS.map (fun e => e.1)) : patternEntry pat = none := by
  unfold patternEntry
  rw [List.find?_eq_none.mpr]
  · rfl
  · intro x hx
    simp only [decide_eq_true_eq]
    intro he
    exact h (he ▸ List.mem_map_of_mem (fun e => e.1) hx)

/-
Claim theorems.
-/

/-- Claim C4: for every prompt whose lower-cased text contains none of
the domain keywords as a substring, detect_domain returns the pair
("general", 0.5). -/
theorem detect_domain_no_keywords (p : String)
    (h : ∀ k ∈ allKeywords, ¬ (k.toList <:+: lowerL p)) :
    detect_domain p = ("general", 0.5) := by
  have hall : allKeywords = kws0 ++ kws1 ++ kws2 ++ kws3 := rfl
  rw [hall] at h
  simp only [List.mem_append, or_imp, forall_and] at h
  obtain ⟨⟨⟨ha, hb⟩, hc⟩, hd⟩ := h
  have h0 : kwHits (lowerL p) kws0 = 0 := (kwHits_eq_zero _ _).mpr ha
  have h1 : kwHits (lowerL p) kws1 = 0 := (kwHits_eq_zero _ _).mpr hb
  have h2 : kwHits (lowerL p) kws2 = 0 := (kwHits_eq_zero _ _).mpr hc
  have h3 : kwHits (lowerL p) kws3 = 0 := (kwHits_eq_zero _ _).mpr hd
  rw [detect_domain_eq, h0, h1, h2, h3]
  rfl

/-- Witness for claim C4 at the prompt hello, which has no keyword. -/
theorem detect_domain_no_keywords_witness :
    detect_domain "hello" = ("general", 0.5) :=
  detect_domain_no_keywords "hello" (by decide)

/-- Claim C5: a prompt whose lower-cased text matches keywords of
exactly one domain, with positive count, is classified as that domain
with confidence min of count over three and one. -/
theorem detect_domain_single_domain (p d : String) (kws : List String) (t : ℚ)
    (hmem : (d, kws, t) ∈ DOMAIN_PATTERNS)
    (hpos : 0 < kwHits (lowerL p) kws)
    (hothers : ∀ d₂ kws₂ t₂, (d₂, kws₂, t₂) ∈ DOMAIN_PATTERNS → d₂ ≠ d →
      kwHits (lowerL p) kws₂ = 0) :
    detect_domain p = (d, min ((kwHits (lowerL p) kws : ℚ) / 3) 1) := by
  rw [detect_domain_eq]
  simp only [DOMAIN_PATTERNS, List.mem_cons, List.not_mem_nil, or_false,
    Prod.mk.injEq] at hmem
  rcases hmem with ⟨rfl, rfl, rfl⟩ | ⟨rfl, rfl, rfl⟩ | ⟨rfl, rfl, rfl⟩ | ⟨rfl, rfl, rfl⟩
  · have z1 := hothers "data_analysis" kws1 0.2 (by simp [DOMAIN_PATTERNS]) (by decide)
    have z2 := hothers "creative" kws2 0.8 (by simp [DOMAIN_PATTERNS]) (by decide)
    have z3 := hothers "research" kws3 0.3 (by simp [DOMAIN_PATTERNS]) (by decide)
    rw [z1, z2, z3]
    unfold dd_model
    split_ifs <;> first | rfl | (exfalso; omega)
  · have z0 := hothers "coding" kws0 0.1 (by simp [DOMAIN_PATTERNS]) (by decide)
    have z2 := hothers "creative" kws2 0.8 (by simp [DOMAIN_PATTERNS]) (by decide)
    have z3 := hothers "research" kws3 0.3 (by simp [DOMAIN_PATTERNS]) (by decide)
    rw [z0, z2, z3]
    unfold dd_model
    split_ifs <;> first | rfl | (exfalso; omega)
  · have z0 := hothers "coding" kws0 0.1 (by simp [DOMAIN_PATTERNS]) (by decide)
    have z1 := hothers "data_analysis" kws1 0.2 (by simp [DOMAIN_PATTERNS]) (by decide)
    have z3 := hothers "research" kws3 0.3 (by simp [DOMAIN_PATTERNS]) (by decide)
    rw [z0, z1, z3]
    unfold dd_model
    split_ifs <;> first | rfl | (exfalso; omega)
  · have z0 := hothers "coding" kws0 0.1 (by simp [DOMAIN_PATTERNS]) (by decide)
    have z1 := hothers "data_analysis" kws1 0.2 (by simp [DOMAIN_PATTERNS]) (by decide)
    have z2 := hothers "creative" kws2 0.8 (by simp [DOMAIN_PATTERNS]) (by decide)
    rw [z0, z1, z2]
    unfold dd_model
    split_ifs <;> first | rfl | (exfalso; omega)

/-- Witness for claim C5 at the prompt poem, matched only by the
creative domain, with count one. -/
theorem detect_domain_single_domain_witness :
    detect_domain "poem" =
      ("creative", min ((kwHits (lowerL "poem") kws2 : ℚ) / 3) 1) :=
  detect_domain_single_domain "poem" "creative" kws2 0.8
    (by simp [DOMAIN_PATTERNS]) (by decide)
    (by
      intro d₂ kws₂ t₂ hmem hne
      simp only [DOMAIN_PATTERNS, List.mem_cons, List.not_mem_nil, or_false,
        Prod.mk.injEq] at hmem
      rcases hmem with ⟨rfl, rfl, rfl⟩ | ⟨rfl, rfl, rfl⟩ | ⟨rfl, rfl, rfl⟩ | ⟨rfl, rfl, rfl⟩
      · decide
      · decide
      · exact absurd rfl hne
      · decide)

/-- Claim C3: when two (or more) domains are tied at the same nonzero
maximal keyword count, detect_domain returns the tied domain that
appears first in the fixed table order; the hypotheses say position i
and a later position j are both at the maximum, and every earlier
position is strictly below it. -/
theorem detect_domain_tie_first (p : String) (i j : Fin 4) (hij : i < j)
    (htie : kwCountIdx p i = kwCountIdx p j) (hpos : 0 < kwCountIdx p i)
    (hmax : ∀ k : Fin 4, kwCountIdx p k ≤ kwCountIdx p i)
    (hfirst : ∀ l : Fin 4, l < i → kwCountIdx p l < kwCountIdx p i) :
    (detect_domain p).1 = (domAt i).1 := by
  have h0 := hmax 0
  have h1 := hmax 1
  have h2 := hmax 2
  have h3 := hmax 3
  have hi4 : i.val < 4 := i.isLt
  have hvi : i.val = 0 ∨ i.val = 1 ∨ i.val = 2 ∨ i.val = 3 := by omega
  rcases hvi with hv | hv | hv | hv
  · have hi : i = 0 := Fin.ext (by rw [hv]; rfl)
    subst hi
    rw [kwCountIdx_zero] at hpos h0 h1 h2 h3
    rw [kwCountIdx_one] at h1
    rw [kwCountIdx_two] at h2
    rw [kwCountIdx_three] at h3
    rw [detect_domain_eq]
    unfold dd_model
    split_ifs <;> first | rfl | (exfalso; omega)
  · have hi : i = 1 := Fin.ext (by rw [hv]; rfl)
    subst hi
    have hf0 := hfirst 0 (by decide)
    rw [kwCountIdx_one] at hpos h0 h1 h2 h3 hf0
    rw [kwCountIdx_zero] at h0 hf0
    rw [kwCountIdx_two] at h2
    rw [kwCountIdx_three] at h3
    rw [detect_domain_eq]
    unfold dd_model
    split_ifs <;> first | rfl | (exfalso; omega)
  · have hi : i = 2 := Fin.ext (by rw [hv]; rfl)
    subst hi
    have hf0 := hfirst 0 (by decide)
    have hf1 := hfirst 1 (by decide)
    rw [kwCountIdx_two] at hpos h0 h1 h2 h3 hf0 hf1
    rw [kwCountIdx_zero] at h0 hf0
    rw [kwCountIdx_one] at h1 hf1
    rw [kwCountIdx_three] at h3
    rw [detect_domain_eq]
    unfold dd_model
    split_ifs <;> first | rfl | (exfalso; omega)
  · have hi : i = 3 := Fin.ext (by rw [hv]; rfl)
    subst hi
    have hf0 := hfirst 0 (by decide)
    have hf1 := hfirst 1 (by decide)
    have hf2 := hfirst 2 (by decide)
    rw [kwCountIdx_three] at hpos h0 h1 h2 h3 hf0 hf1 hf2
    rw [kwCountIdx_zero] at h0 hf0
    rw [kwCountIdx_one] at h1 hf1
    rw [kwCountIdx_two] at h2 hf2
    rw [detect_domain_eq]
    unfold dd_model
    split_ifs <;> first | rfl | (exfalso; omega)

/-- Witness for claim C3: the prompt code data ties coding and
data analysis at count one and the first of them wins. -/
theorem detect_domain_tie_first_witness :
    (detect_domain "code data").1 = (domAt 0).1 :=
  detect_domain_tie_first "code data" 0 1 (by decide) (by decide) (by decide)
    (by decide) (by decide)

/-- Claim C10: a non-general classification implies an occurring
keyword of the returned domain and a confidence of at least one third;
the confidence always lies between zero and one. -/
theorem detect_domain_invariants (p : String) :
    ((detect_domain p).1 ≠ "general" →
      (∃ k ∈ domainKeywords (detect_domain p).1, k.toList <:+: lowerL p) ∧
        (1 : ℚ) / 3 ≤ (detect_domain p).2) ∧
    0 ≤ (detect_domain p).2 ∧ (detect_domain p).2 ≤ 1 := by
  rw [detect_domain_eq]
  unfold dd_model
  split_ifs with hA hB hC hD
  · exact ⟨fun hne => absurd rfl hne, by norm_num, by norm_num⟩
  · have hc : 0 < kwHits (lowerL p) kws0 := by omega
    obtain ⟨hconf, hnn, hub⟩ := conf_bounds (kwHits (lowerL p) kws0) hc
    refine ⟨fun _ => ⟨?_, hconf⟩, hnn, hub⟩
    show ∃ k ∈ domainKeywords "coding", k.toList <:+: lowerL p
    exact exists_keyword_of_pos _ _ hc
  · have hc : 0 < kwHits (lowerL p) kws1 := by omega
    obtain ⟨hconf, hnn, hub⟩ := conf_bounds (kwHits (lowerL p) kws1) hc
    refine ⟨fun _ => ⟨?_, hconf⟩, hnn, hub⟩
    show ∃ k ∈ domainKeywords "data_analysis", k.toList <:+: lowerL p
    exact exists_keyword_of_pos _ _ hc
  · have hc : 0 < kwHits (lowerL p) kws2 := by omega
    obtain ⟨hconf, hnn, hub⟩ := conf_bounds (kwHits (lowerL p) kws2) hc
    refine ⟨fun _ => ⟨?_, hconf⟩, hnn, hub⟩
    show ∃ k ∈ domainKeywords "creative", k.toList <:+: lowerL p
    exact exists_keyword_of_pos _ _ hc
  · have hc : 0 < kwHits (lowerL p) kws3 := by omega
    obtain ⟨hconf, hnn, hub⟩ := conf_bounds (kwHits (lowerL p) kws3) hc
    refine ⟨fun _ => ⟨?_, hconf⟩, hnn, hub⟩
    show ∃ k ∈ domainKeywords "research", k.toList <:+: lowerL p
    exact exists_keyword_of_pos _ _ hc

/-- Witness for claim C10 at the prompt poem, classified creative. -/
theorem detect_domain_invariants_witness :
    (∃ k ∈ domainKeywords (detect_domain "poem").1, k.toList <:+: lowerL "poem") ∧
      (1 : ℚ) / 3 ≤ (detect_domain "poem").2 :=
  (detect_domain_invariants "poem").1 (by decide)

/-- Counterexample for claim C1: the prompt hello is classified as
general, general is not a key of the domain table, and the defensive
0.5 domain default therefore shapes the resulting temperature. -/
theorem detect_domain_general_not_in_table :
    (detect_domain "hello").1 = "general" ∧ domainEntry "general" = none ∧
      (model_config "general" "Zero-Shot").temperature = 0.4 := by
  refine ⟨by decide, rfl, ?_⟩
  have h1 : domainEntry "general" = none := rfl
  have h2 : patternEntry "Zero-Shot" = some 0.3 := rfl
  unfold model_config
  rw [h1, h2]
  show round2 ((0.5 + 0.3) / 2) = 0.4
  norm_num [round2, round_eq]

/-- Claim C1 as amended: every domain name detect_domain can return is
either the fallback name general, whose lookup fails and exercises the
defensive default, or one of the four table keys, whose lookup
succeeds. -/
theorem detect_domain_lookup_or_general (p : String) :
    (detect_domain p).1 = "general" ∨
      (domainEntry (detect_domain p).1).isSome = true := by
  rw [detect_domain_eq]
  unfold dd_model
  split_ifs <;> first | exact Or.inl rfl | exact Or.inr rfl

/-- Counterexample for claim C2: the issue strings carry no trailing
period, so the two period-terminated strings of the claim are absent
from the report for the prompt hi. -/
theorem analyze_quality_hi_no_trailing_period :
    ¬ ("Too short – add more context." ∈ (analyze_prompt_quality "hi").issues ∧
      "No output format specified." ∈ (analyze_prompt_quality "hi").issues) := by
  decide

/-- Claim C2 as amended: the report for the prompt hi lists exactly
the two issue strings without trailing periods, and the score is 6. -/
theorem analyze_quality_hi_exact :
    (analyze_prompt_quality "hi").issues =
      ["Too short – add more context", "No output format specified"] ∧
    (analyze_prompt_quality "hi").score = 6 := by
  decide

/-- Claim C6: for every domain and prompt, recommend_pattern returns
Chain-of-Thought when the lower-cased prompt contains step by step,
else Few-Shot when it contains example, else Zero-Shot, and never any
other name. -/
theorem recommend_pattern_cases (d p : String) :
    (("step by step".toList <:+: lowerL p) →
      recommend_pattern d p = "Chain-of-Thought") ∧
    (¬ ("step by step".toList <:+: lowerL p) → ("example".toList <:+: lowerL p) →
      recommend_pattern d p = "Few-Shot") ∧
    (¬ ("step by step".toList <:+: lowerL p) → ¬ ("example".toList <:+: lowerL p) →
      recommend_pattern d p = "Zero-Shot") ∧
    (recommend_pattern d p = "Chain-of-Thought" ∨
      recommend_pattern d p = "Few-Shot" ∨ recommend_pattern d p = "Zero-Shot") := by
  unfold recommend_pattern
  split_ifs with h1 h2 <;> simp_all

/-- Witness for claim C6: a prompt containing both trigger substrings
is mapped to Chain-of-Thought. -/
theorem recommend_pattern_cases_witness :
    recommend_pattern "general" "give an example step by step" = "Chain-of-Thought" :=
  (recommend_pattern_cases "general" "give an example step by step").1 (by decide)

/-- Claim C7: model_config averages the domain temperature (0.5 when
the domain is not a table key) and the pattern temperature (0.5 when
the pattern is not a table key), rounds to two decimals, and pairs the
result with the 3000 token budget; on coding with Structured Output it
yields temperature 0.1. -/
theorem model_config_spec (d pat : String) :
    (model_config d pat).max_tokens = 3000 ∧
    (∀ kws t, (d, kws, t) ∈ DOMAIN_PATTERNS → ∀ t₂, (pat, t₂) ∈ PROMPT_PATTERNS →
      (model_config d pat).temperature = round2 ((t + t₂) / 2)) ∧
    (d ∉ DOMAIN_PATTERNS.map (fun e => e.1) → ∀ t₂, (pat, t₂) ∈ PROMPT_PATTERNS →
      (model_config d pat).temperature = round2 ((0.5 + t₂) / 2)) ∧
    (pat ∉ PROMPT_PATTERNS.map (fun e => e.1) → ∀ kws t, (d, kws, t) ∈ DOMAIN_PATTERNS →
      (model_config d pat).temperature = round2 ((t + 0.5) / 2)) ∧
    (d ∉ DOMAIN_PATTERNS.map (fun e => e.1) → pat ∉ PROMPT_PATTERNS.map (fun e => e.1) →
      (model_config d pat).temperature = round2 ((0.5 + 0.5) / 2)) ∧
    model_config "coding" "Structured Output" = ⟨0.1, 3000⟩ := by
  refine ⟨rfl, ?_, ?_, ?_, ?_, ?_⟩
  · intro kws t hd t₂ hp
    unfold model_config
    rw [domainEntry_of_mem d kws t hd, patternEntry_of_mem pat t₂ hp]
    rfl
  · intro hd t₂ hp
    unfold model_config
    rw [domainEntry_of_not_key d hd, patternEntry_of_mem pat t₂ hp]
    rfl
  · intro hp kws t hd
    unfold model_config
    rw [domainEntry_of_mem d kws t hd, patternEntry_of_not_key pat hp]
    rfl
  · intro hd hp
    unfold model_config
    rw [domainEntry_of_not_key d hd, patternEntry_of_not_key pat hp]
    rfl
  · have h : model_config "coding" "Structured Output" =
      ⟨round2 ((0.1 + 0.1) / 2), 3000⟩ := rfl
    rw [h]
    have hval : round2 (((0.1 : ℚ) + 0.1) / 2) = 0.1 := by
      norm_num [round2, round_eq]
    rw [hval]

/-- Witness for claim C7 at coding with Structured Output. -/
theorem model_config_spec_witness :
    (model_config "coding" "Structured Output").max_tokens = 3000 ∧
    (model_config "coding" "Structured Output").temperature =
      round2 ((0.1 + 0.1) / 2) :=
  ⟨(model_config_spec "coding" "Structured Output").1,
   (model_config_spec "coding" "Structured Output").2.1 kws0 0.1
     (by simp [DOMAIN_PATTERNS]) 0.1 (by simp [PROMPT_PATTERNS])⟩

/-- Claim C8: every quality report has at most two issues, its score
is ten minus twice the issue count, hence in the set 6, 8, 10, inside
the one to ten range, and the floor clamp never changes the value. -/
theorem analyze_quality_invariants (p : String) :
    (analyze_prompt_quality p).issues.length ≤ 2 ∧
    (analyze_prompt_quality p).score =
      10 - 2 * ((analyze_prompt_quality p).issues.length : ℤ) ∧
    ((analyze_prompt_quality p).score = 6 ∨ (analyze_prompt_quality p).score = 8 ∨
      (analyze_prompt_quality p).score = 10) ∧
    1 ≤ (analyze_prompt_quality p).score ∧ (analyze_prompt_quality p).score ≤ 10 := by
  simp only [analyze_prompt_quality]
  split_ifs <;> norm_num

/-- Claim C9: submitting with an empty API key and a non-empty prompt
is blocked at the credential check: the outcome is the missing-key
error, no outbound chat-completion call is made, and no analysis
result is produced. -/
theorem refine_submit_missing_key (p : String) (hp : p ≠ "") :
    refine_submit "" p = SubmitOutcome.missingKey ∧
    outbound_calls (refine_submit "" p) = 0 ∧
    ∀ d c q pat cfg, refine_submit "" p ≠ SubmitOutcome.analyzed d c q pat cfg := by
  have h : refine_submit "" p = SubmitOutcome.missingKey := by
    unfold refine_submit
    simp
  refine ⟨h, by rw [h]; rfl, ?_⟩
  intro d c q pat cfg hq
  rw [h] at hq
  exact SubmitOutcome.noConfusion hq

/-- Witness for claim C9 at the non-empty prompt hi. -/
theorem refine_submit_missing_key_witness :
    refine_submit "" "hi" = SubmitOutcome.missingKey :=
  (refine_submit_missing_key "hi" (by decide)).1
